import Mathlib

/-!
# Verification of the van-reactive-element property/attribute engine

Shallow embedding of the library's converter registry, naming utilities,
property-descriptor builder, attribute sync bridge and lifecycle controller
(sources: `src/property-utils.ts` and the main module, referred to below by
their line numbers in the repository snapshot), together with proofs and
refutations of the frozen specification claims.

Modeling conventions:
* JavaScript runtime values are modeled by the inductive `JSVal`.  Numbers are
  modeled by the integer fragment of IEEE doubles (`Int`, plus a `nan` point);
  non-integer floats are outside the model, which is the precision caveat the
  spec itself makes for number round-trips.  Structural equality on `JSVal`
  stands in for JS `===`; on the primitive fragment (null, undefined, booleans,
  integers, strings) the two coincide exactly, and no claim distinguishes
  reference- from value-equal objects.
* DOM attribute state is a finite map `String → Option String` (absent = the
  attribute is not present).
* The host's `JSON.stringify` / `JSON.parse` pair is an explicit parameter
  (`JsonHost`); theorems that depend on the host JSON round-trip take it as a
  hypothesis, exactly the guarantee the host provides.
-/

namespace VanRE

/-- A JavaScript runtime value (the fragment the library manipulates):
`undefined`, `null`, booleans, numbers (integer fragment plus `NaN`),
strings, arrays and plain objects. -/
inductive JSVal where
  | undef
  | jsNull
  | bool (b : Bool)
  | num (n : Int)
  | nan
  | str (s : String)
  | arr (elems : List JSVal)
  | dict (fields : List (String × JSVal))

mutual

/-- JS strict equality `a === b` on the modeled fragment.  On primitives this
is exactly `===`; on arrays and objects JS compares references, which the
model approximates by structural equality (no claim distinguishes reference-
from value-equal objects). -/
def jsStrictEq : JSVal → JSVal → Bool
  | .undef, .undef => true
  | .jsNull, .jsNull => true
  | .bool a, .bool b => a = b
  | .num a, .num b => a = b
  | .nan, .nan => true
  | .str a, .str b => a = b
  | .arr a, .arr b => jsStrictEqList a b
  | .dict a, .dict b => jsStrictEqFields a b
  | _, _ => false

/-- Element-wise strict equality of arrays. -/
def jsStrictEqList : List JSVal → List JSVal → Bool
  | [], [] => true
  | a :: as_, b :: bs => jsStrictEq a b && jsStrictEqList as_ bs
  | _, _ => false

/-- Field-wise strict equality of objects. -/
def jsStrictEqFields : List (String × JSVal) → List (String × JSVal) → Bool
  | [], [] => true
  | (k, a) :: as_, (l, b) :: bs => k = l && (jsStrictEq a b && jsStrictEqFields as_ bs)
  | _, _ => false

end

/-- JS loose equality against null: `v == null` holds exactly for `null` and
`undefined`. -/
def looseEqNull : JSVal → Bool
  | .undef => true
  | .jsNull => true
  | _ => false

/-- JS `typeof v === 'object'` for values other than `null` (the call sites
below only reach this test after a `== null` guard). -/
def isObjectVal : JSVal → Bool
  | .arr _ => true
  | .dict _ => true
  | _ => false

/-- JS truthiness on `JSVal`: `undefined`, `null`, `false`, `0`, `NaN` and the
empty string are falsy, everything else truthy. -/
def jsTruthy : JSVal → Bool
  | .undef => false
  | .jsNull => false
  | .bool b => b
  | .num n => n ≠ 0
  | .nan => false
  | .str s => s ≠ ""
  | .arr _ => true
  | .dict _ => true

/-! ## Decimal rendering and parsing of the integer fragment

JS `String(n)` and `Number(s)` restricted to integers, with the round-trip
proof used by the number-converter claims. -/

/-- The ASCII character for the digit `d` (meaningful for `d < 10`). -/
def digitChar (d : Nat) : Char := Char.ofNat (48 + d)

/-- Numeric value of an ASCII digit character. -/
def digitVal (c : Char) : Nat := c.toNat - 48

/-- Whether `c` is an ASCII decimal digit. -/
def isDigitChar (c : Char) : Bool := 48 ≤ c.toNat && c.toNat ≤ 57

/-- Decimal digit string of `n`, most significant digit first. -/
def natToDigits (n : Nat) : List Char :=
  if _h : n < 10 then [digitChar n]
  else natToDigits (n / 10) ++ [digitChar (n % 10)]
decreasing_by exact Nat.div_lt_self (by omega) (by omega)

/-- JS `String(n)` for a nonnegative integer. -/
def natToString (n : Nat) : String := ⟨natToDigits n⟩

/-- JS `String(i)` for an integer double. -/
def intToString (i : Int) : String :=
  if i < 0 then "-" ++ natToString i.natAbs else natToString i.toNat

/-- Strict decimal parser for a digit list (no sign): every character must be a
digit and the list nonempty. -/
def parseDigits? (l : List Char) : Option Nat :=
  if l ≠ [] ∧ l.all isDigitChar then
    some (l.foldl (fun a c => a * 10 + digitVal c) 0)
  else none

/-- Strict decimal integer parser (optional leading minus sign). -/
def parseDecInt? (s : String) : Option Int :=
  match s.data with
  | '-' :: rest => (parseDigits? rest).map (fun (n : Nat) => -(n : Int))
  | l => (parseDigits? l).map (fun (n : Nat) => (n : Int))

/-- JS `Number(s)` on the modeled fragment: the empty string is `0`, decimal
integer literals parse exactly, and every other string is outside the integer
fragment and mapped to `NaN` (in JS it yields a non-integer double or `NaN`;
either way it is not an integer). -/
def jsNumberParse (s : String) : JSVal :=
  if s = "" then .num 0
  else
    match parseDecInt? s with
    | some n => .num n
    | none => .nan

/-! ## String display of values: JS `String(v)`

Primitives are modeled exactly.  For arrays JS joins the elements with commas
(an element that is `null`/`undefined` renders empty); one level of nesting is
modeled, which no claim exercises deeper. -/

/-- Display string of a primitive array element (`Array.prototype.join`):
`null` and `undefined` render as the empty string.  Nested arrays and objects
are outside the modeled fragment. -/
def jsPrimElemString : JSVal → String
  | .undef => ""
  | .jsNull => ""
  | .bool b => if b then "true" else "false"
  | .num n => intToString n
  | .nan => "NaN"
  | .str s => s
  | .arr _ => ""
  | .dict _ => "[object Object]"

/-- JS `String(v)`. -/
def jsToString : JSVal → String
  | .undef => "undefined"
  | .jsNull => "null"
  | .bool b => if b then "true" else "false"
  | .num n => intToString n
  | .nan => "NaN"
  | .str s => s
  | .arr l => String.intercalate "," (l.map jsPrimElemString)
  | .dict _ => "[object Object]"

/-! ## Naming utilities (source: `property-utils.ts` lines 78-88)

`camelAndPascalToKebab` is two global regex replacements followed by
lowercasing; each replacement is modeled as the left-to-right, non-overlapping
scan JS `String.replace` with a global regex performs: after a match the scan
resumes after the matched text. -/

/-- Whether `c` is in the regex class `[a-z0-9]`. -/
def isLowerOrDigit (c : Char) : Bool :=
  ('a' ≤ c && c ≤ 'z') || ('0' ≤ c && c ≤ '9')

/-- Whether `c` is in the regex class `[A-Z]`. -/
def isUpperAscii (c : Char) : Bool := 'A' ≤ c && c ≤ 'Z'

/-- Whether `c` is in the regex class `[a-z]`. -/
def isLowerAscii (c : Char) : Bool := 'a' ≤ c && c ≤ 'z'

/-- ASCII lowercasing of one character (JS `toLowerCase` on the ASCII range). -/
def toLowerAscii (c : Char) : Char :=
  if isUpperAscii c then Char.ofNat (c.toNat + 32) else c

/-- ASCII uppercasing of one character (JS `toUpperCase` on the ASCII range). -/
def toUpperAscii (c : Char) : Char :=
  if isLowerAscii c then Char.ofNat (c.toNat - 32) else c

/-- Global replace of `/([a-z0-9])([A-Z])/` with `$1-$2`: insert a hyphen
between a lowercase letter or digit and the uppercase letter that follows.
Both matched characters are kept; the scan resumes after the match. -/
def hyphenateLowerUpper : List Char → List Char
  | [] => []
  | [c] => [c]
  | c₁ :: c₂ :: rest =>
    if isLowerOrDigit c₁ && isUpperAscii c₂ then
      c₁ :: '-' :: c₂ :: hyphenateLowerUpper rest
    else
      c₁ :: hyphenateLowerUpper (c₂ :: rest)

/-- Global replace of `/([A-Z])([A-Z][a-z])/` with `$1-$2`: insert a hyphen
before the last uppercase letter of an uppercase run that is followed by a
lowercase letter.  The three matched characters are kept; the scan resumes
after the match. -/
def hyphenateAcronym : List Char → List Char
  | c₁ :: c₂ :: c₃ :: rest =>
    if isUpperAscii c₁ && (isUpperAscii c₂ && isLowerAscii c₃) then
      c₁ :: '-' :: c₂ :: c₃ :: hyphenateAcronym rest
    else
      c₁ :: hyphenateAcronym (c₂ :: c₃ :: rest)
  | l => l

/-- Source `camelAndPascalToKebab`: the two hyphenation passes, then
lowercase. -/
def camelAndPascalToKebab (s : String) : String :=
  ⟨(hyphenateAcronym (hyphenateLowerUpper s.data)).map toLowerAscii⟩

/-- JS `str.split('-')` on the character list: splitting the empty string
yields one empty segment, and adjacent separators yield empty segments. -/
def splitOnChar (sep : Char) : List Char → List (List Char)
  | [] => [[]]
  | c :: rest =>
    let r := splitOnChar sep rest
    if c = sep then [] :: r
    else
      match r with
      | [] => [[c]]
      | w :: ws => (c :: w) :: ws

/-- JS `word.charAt(0).toUpperCase() + word.slice(1)` on a split segment. -/
def capitalizeFirst : List Char → List Char
  | [] => []
  | c :: rest => toUpperAscii c :: rest

/-- The indexed map of the source (`index === 0` keeps the word, any later
index capitalizes it). -/
def capitalizeTail : List (List Char) → List (List Char)
  | [] => []
  | w :: ws => w :: ws.map capitalizeFirst

/-- Source `kebabToCamel`: split on hyphens, capitalize every segment after
the first, concatenate (`join('')`). -/
def kebabToCamel (s : String) : String :=
  ⟨(capitalizeTail (splitOnChar '-' s.data)).flatten⟩

/-! ## Converter registry (source: `property-utils.ts` lines 29-76)

A converter is a pair of functions between property values and attribute
values.  Attribute values are JS values at the converter boundary (`null`
encodes an absent attribute); the call sites below inject present attributes
as `.str` and absent ones as `.jsNull`. -/

/-- A property/attribute converter pair. -/
structure AttributeConverter where
  toAttribute : JSVal → JSVal
  fromAttribute : JSVal → JSVal

/-- Source `defaultConverter`: identity pass-through in both directions. -/
def defaultConverter : AttributeConverter where
  toAttribute := fun value => value
  fromAttribute := fun value => value

/-- Source `booleanConverter`: presence encodes truthiness
(`value ? '' : null` / `value !== null`). -/
def booleanConverter : AttributeConverter where
  toAttribute := fun value => if jsTruthy value then .str "" else .jsNull
  fromAttribute := fun value => .bool (!jsStrictEq value .jsNull)

/-- Source `numberConverter`: `value === null ? null : String(value)` and
`value === null ? null : Number(value)`.  Note the strict `===` test: only
`null` maps to an absent attribute; `undefined` stringifies to
`"undefined"`. -/
def numberConverter : AttributeConverter where
  toAttribute := fun value => if jsStrictEq value .jsNull then .jsNull else .str (jsToString value)
  fromAttribute := fun value =>
    if jsStrictEq value .jsNull then .jsNull
    else
      match value with
      | .str s => jsNumberParse s
      | .num n => .num n
      | .bool b => .num (if b then 1 else 0)
      | .undef => .nan
      | other => jsNumberParse (jsToString other)

/-- Source `stringConverter`: `value === null ? null : String(value)` in both
directions (same strict `===` caveat as `numberConverter`). -/
def stringConverter : AttributeConverter where
  toAttribute := fun value => if jsStrictEq value .jsNull then .jsNull else .str (jsToString value)
  fromAttribute := fun value => if jsStrictEq value .jsNull then .jsNull else .str (jsToString value)

/-- The host JSON capability (`JSON.stringify` / `JSON.parse`), an external
collaborator of the library.  `parse` returns `none` where `JSON.parse`
throws. -/
structure JsonHost where
  stringify : JSVal → String
  parse : String → Option JSVal

/-- Source `objectConverter` (also used for the array tag): serialize with
`value == null ? null : JSON.stringify(value)` (loose `==`); on read, pass
`null`/`undefined` through as `null`, pass an already-object value through
unchanged, and otherwise try `JSON.parse`, returning the raw value unchanged
on parse failure (the catch branch logs and never throws). -/
def objectConverter (h : JsonHost) : AttributeConverter where
  toAttribute := fun value => if looseEqNull value then .jsNull else .str (h.stringify value)
  fromAttribute := fun value =>
    if looseEqNull value then .jsNull
    else if isObjectVal value then value
    else
      match h.parse (jsToString value) with
      | some j => j
      | none => value

/-- The five type tags of the converter registry, plus a tag standing for any
other constructor function (whose name is not a key of the registry). -/
inductive TypeTag where
  | tString
  | tNumber
  | tBoolean
  | tObject
  | tArray
  | tOther
deriving DecidableEq

/-- Source `converters` record: lookup by `type.name`.  A constructor whose
name is not a key yields `undefined` (here `none`). -/
def convertersLookup (h : JsonHost) : TypeTag → Option AttributeConverter
  | .tString => some stringConverter
  | .tNumber => some numberConverter
  | .tBoolean => some booleanConverter
  | .tObject => some (objectConverter h)
  | .tArray => some (objectConverter h)
  | .tOther => none

/-! ## Property options and converter resolution -/

/-- The `attribute` field of a property config: absent, boolean, or an
explicit attribute name. -/
inductive AttrOpt where
  | unset
  | abool (b : Bool)
  | aname (s : String)
deriving DecidableEq

/-- A per-property configuration (source `PropertyOptions`).  The source field
`attribute` is named `attr` here because `attribute` is a Lean keyword.
`default` is `.undef` when absent, matching JS field access on a missing
key. -/
structure PropertyOptions where
  attr : AttrOpt := .unset
  converter : Option AttributeConverter := none
  default : JSVal := .undef
  reflect : Bool := false
  type : Option TypeTag := none

/-- The empty options object `{}` that a null/undefined per-property config is
coerced to by `properties[property] || {}`. -/
def emptyOptions : PropertyOptions := {}

/-- Converter resolution (source expression
`options.converter || (options.type && converters[options.type.name]) || defaultConverter`):
explicit converter first, then registry lookup by type tag, then the identity
default. -/
def resolveConverter (h : JsonHost) (options : PropertyOptions) : AttributeConverter :=
  match options.converter with
  | some c => c
  | none =>
    match options.type with
    | some t => (convertersLookup h t).getD defaultConverter
    | none => defaultConverter

/-! ## Attribute-backed property engine

Model of one element instance after `_setupProperties` installed the
attribute-backed accessors (source `_setupProperties`, else branch): the raw
cell values, the DOM attributes, the two name maps, and the
`_reflectingProperty` guard.  DOM attribute and cell mutations are logged so
that "no write happened" is an observable statement. -/

/-- An observable mutation performed by the property setter. -/
inductive DomOp where
  | cellWrite (prop : String) (value : JSVal)
  | setAttr (name value : String)
  | removeAttr (name : String)

/-- Mutable per-instance state of an element whose accessors are installed.
`props q` is the per-property config the accessor for `q` closed over at
install time — for a null-config entry this is the coerced `{}`
(`none` = no accessor installed for `q`); `staticProps q` is the raw lookup
`ctor.properties[q]` in the class's static properties record, `none` when the
key is absent or its config is null/undefined (a falsy `options`); `cells q`
is `propertyState.rawVal` of the backing cell; `attrs q` is the DOM attribute
named `q` (`none` = absent). -/
structure Element where
  props : String → Option PropertyOptions
  staticProps : String → Option PropertyOptions
  cells : String → JSVal
  attrs : String → Option String
  attrToProp : String → Option String
  propToAttr : String → Option String
  reflecting : Option String

/-- Pointwise update of a total map. -/
def updFn {α : Type} (f : String → α) (k : String) (v : α) : String → α :=
  fun q => if q = k then v else f q

/-- An attribute value as seen by a converter: an absent attribute is
`null`. -/
def optStrToJS : Option String → JSVal
  | none => .jsNull
  | some s => .str s

/-- The installed property setter (source `_setupProperties` lines 745-764):
short-circuit when the new value is strictly equal to `rawVal`; otherwise
write the cell and, when `reflect` is set and the property has a mapped
attribute name, hold the `_reflectingProperty` guard and write the converted
value to the attribute (`removeAttribute` when the converter yields `null`,
`setAttribute` with the string coercion otherwise), then release the
guard. -/
def setProp (h : JsonHost) (el : Element) (property : String) (newValue : JSVal) :
    Element × List DomOp :=
  match el.props property with
  | none => (el, [])
  | some userOptions =>
    if jsStrictEq (el.cells property) newValue then (el, [])
    else
      let el₁ := { el with cells := updFn el.cells property newValue }
      let log₁ := [DomOp.cellWrite property newValue]
      if userOptions.reflect then
        match el.propToAttr property with
        | some attrName =>
          let el₂ := { el₁ with reflecting := some property }
          let converter := resolveConverter h userOptions
          let attrValue := converter.toAttribute newValue
          if jsStrictEq attrValue .jsNull then
            let el₃ := { el₂ with attrs := updFn el₂.attrs attrName none, reflecting := none }
            (el₃, log₁ ++ [DomOp.removeAttr attrName])
          else
            let av := jsToString attrValue
            let el₃ := { el₂ with attrs := updFn el₂.attrs attrName (some av), reflecting := none }
            (el₃, log₁ ++ [DomOp.setAttr attrName av])
        | none => (el₁, log₁)
      else (el₁, log₁)

/-- Source `attributeChangedCallback` (main module lines 449-467): no-op when
old and new values are equal, when the attribute is unmapped, or when the
reflecting guard names the mapped property.  The callback then re-reads the
raw config `ctor.properties[propName]` from the class's static record —
not the config the installed setter closed over — and returns if it is
falsy (`if (!options) return`, line 457); otherwise it resolves the
converter from that raw config, converts `newValue` with `fromAttribute`,
and assigns the result through the normal property setter. -/
def attributeChangedCallback (h : JsonHost) (el : Element) (name : String)
    (oldValue newValue : Option String) : Element × List DomOp :=
  if oldValue = newValue then (el, [])
  else
    match el.attrToProp name with
    | none => (el, [])
    | some propName =>
      if el.reflecting = some propName then (el, [])
      else
        match el.staticProps propName with
        | none => (el, [])
        | some options =>
          let converter := resolveConverter h options
          let value := converter.fromAttribute (optStrToJS newValue)
          setProp h el propName value

/-! ## The property installation pass (source `_setupProperties`, lines 706-780)

A static model of one `_setupProperties` run over a schema: which properties
receive an accessor pair (and where it is installed), and the contents of the
two name maps.  A schema entry's config is `none` for a `null`/`undefined`
config; the source coerces such an entry with `properties[property] || {}`. -/

/-- JS `Map.set`: overwrite the value of an existing key in place, otherwise
append the pair. -/
def mapSet (m : List (String × String)) (k v : String) : List (String × String) :=
  if m.any (fun e => e.1 = k) then m.map (fun e => if e.1 = k then (k, v) else e)
  else m ++ [(k, v)]

/-- Result of the installation pass: the two name maps, the properties that
got an accessor on the instance (`defineProperty(this, …)`, attribute-backed
branch), and the properties that got an accessor on the class prototype
(`defineProperty(getPrototypeOf(this), …)`, `attribute: false` branch). -/
structure SetupOutcome where
  attrToProp : List (String × String) := []
  propToAttr : List (String × String) := []
  instanceAccessors : List String := []
  protoAccessors : List String := []
deriving DecidableEq

/-- One loop iteration of `_setupProperties`: coerce a null config to `{}`,
then branch on `attribute === false`. -/
def setupStep (acc : SetupOutcome) (entry : String × Option PropertyOptions) : SetupOutcome :=
  let property := entry.1
  let userOptions := entry.2.getD emptyOptions
  if userOptions.attr = .abool false then
    { acc with protoAccessors := acc.protoAccessors ++ [property] }
  else
    let attrName :=
      match userOptions.attr with
      | .aname s => s
      | _ => camelAndPascalToKebab property
    { acc with
        attrToProp := mapSet acc.attrToProp attrName property
        propToAttr := mapSet acc.propToAttr property attrName
        instanceAccessors := acc.instanceAccessors ++ [property] }

/-- The full `_setupProperties` loop over the schema. -/
def setupProperties (schema : List (String × Option PropertyOptions)) : SetupOutcome :=
  schema.foldl setupStep {}

/-- Source static `observedAttributes` (main module lines 431-447): project
the schema, skipping entries whose config is falsy (`if (!options) continue`)
and entries with `attribute === false`; the attribute name is the explicit
string or the kebab-cased property name. -/
def observedAttributes (schema : List (String × Option PropertyOptions)) : List String :=
  schema.foldl
    (fun acc entry =>
      match entry.2 with
      | none => acc
      | some options =>
        if options.attr = .abool false then acc
        else
          acc ++ [match options.attr with
                  | .aname s => s
                  | _ => camelAndPascalToKebab entry.1])
    []

/-! ## The `attribute: false` branch and prototype sharing

Source `_setupProperties` lines 718-731: for a property declared with
`attribute: false`, the get/set pair is installed with
`defineProperty(getPrototypeOf(this), property, …)` — on the class
prototype, which all instances of the class share — and both functions close
over the per-call local `propValue` (a reactive cell seeded from the
default).  Each instance's constructor runs `_setupProperties` (the
`_hasSetupProperties` guard is per instance), so constructing another
instance re-installs the prototype accessor with a closure over a fresh
cell.  The model below makes the shared slot explicit: a heap of cells, and
the single prototype slot holding the cell the current accessor closes
over. -/

/-- The value assigned through the `attribute: false` setter: a plain value
(written through to `propValue.val`) or an already-reactive cell (which
replaces the `propValue` reference, per `isValueState`). -/
inductive WriteArg where
  | plain (v : JSVal)
  | stateRef (cell : Nat)

/-- World of one component class with a single `attribute: false` property:
the cell heap, the allocator, the prototype accessor's closure slot, and the
number of constructed instances (ids `0, 1, …`). -/
structure ProtoWorld where
  heap : List (Nat × JSVal)
  nextCell : Nat
  protoSlot : Option Nat
  instances : Nat

/-- The world before any instance is constructed. -/
def emptyProtoWorld : ProtoWorld :=
  { heap := [], nextCell := 0, protoSlot := none, instances := 0 }

/-- Overwrite the value of cell `c`. -/
def heapSet (hp : List (Nat × JSVal)) (c : Nat) (v : JSVal) : List (Nat × JSVal) :=
  hp.map (fun e => if e.1 = c then (c, v) else e)

/-- Constructing an instance runs `_setupProperties` (constructor →
`rxScope`), whose `attribute: false` branch allocates a cell holding the
plain default (`van.state(defaultValue)`) and redefines the prototype
accessor with a closure over it. -/
def constructInstance (defaultValue : JSVal) (w : ProtoWorld) : ProtoWorld :=
  { heap := w.heap ++ [(w.nextCell, defaultValue)]
    nextCell := w.nextCell + 1
    protoSlot := some w.nextCell
    instances := w.instances + 1 }

/-- Reading the property on instance `inst`: the instance has no own
property named this way (the accessor was defined on the prototype), so JS
property lookup falls through to the prototype accessor, whose getter returns
the closure cell — the same for every instance. -/
def readPropCell (w : ProtoWorld) (_inst : Nat) : Option Nat := w.protoSlot

/-- The value held by the cell the property on `inst` resolves to. -/
def readPropVal (w : ProtoWorld) (inst : Nat) : Option JSVal :=
  (readPropCell w inst).bind (fun c => w.heap.lookup c)

/-- Writing the property on instance `inst` invokes the prototype setter:
a cell value replaces the closure reference, a plain value writes through to
`propValue.val` of the shared closure cell. -/
def writeProp (w : ProtoWorld) (_inst : Nat) : WriteArg → ProtoWorld
  | .stateRef c => { w with protoSlot := some c }
  | .plain v =>
    match w.protoSlot with
    | some c => { w with heap := heapSet w.heap c v }
    | none => w

/-! ## Lifecycle controller (source `connectedCallback` / `disconnectedCallback`,
main module lines 469-520)

Per-instance lifecycle state, with observation counters for renders, mount
and cleanup invocations.  A disposer is an id paired with whether invoking it
throws; the user `onCleanup` hook's throwing behavior is part of the state.
`pendingFrames` counts scheduled `requestAnimationFrame` callbacks that have
not fired yet. -/

/-- Lifecycle-relevant element state. -/
structure El where
  hasSetupProperties : Bool
  isSetupComplete : Bool
  disposers : List (Nat × Bool)
  nextDisposerId : Nat
  attrToProp : List (String × String)
  propToAttr : List (String × String)
  renderRoot : Bool
  renderCount : Nat
  pendingFrames : Nat
  mountCalls : Nat
  cleanupCalls : Nat
  cleanupThrows : Bool
deriving DecidableEq

/-- An element together with the host's `isConnected` flag. -/
structure World where
  el : El
  connected : Bool
deriving DecidableEq

/-- Invoking one disposer: throws iff its flag says so. -/
def invokeDisposer (d : Nat × Bool) : Except String Unit :=
  if d.2 then .error "disposer threw" else .ok ()

/-- The `forEach` drain with the body `try { disposer() } catch { log }`
(source lines 502-508): every registered disposer is invoked — a throwing
invocation is caught and logged and iteration continues.  Returns the ids in
invocation order. -/
def drainCaught : List (Nat × Bool) → List Nat
  | [] => []
  | d :: ds =>
    match invokeDisposer d with
    | .ok _ => d.1 :: drainCaught ds
    | .error _ => d.1 :: drainCaught ds

/-- Invoking the user `onCleanup` hook. -/
def invokeCleanup (e : El) : Except String Unit :=
  if e.cleanupThrows then .error "cleanup threw" else .ok ()

/-- Source `disconnectedCallback` (lines 498-520) with exception behavior
explicit: no-op if the element still reports connected (spurious
move/reparent notification); otherwise drain every disposer (each invocation
individually caught), clear the set, reset `_isSetupComplete`, then invoke
the user cleanup hook inside `try`/`catch`.  The result also carries the ids
of the disposers invoked.  An uncaught exception would surface as
`.error`. -/
def disconnectedCallbackE (connected : Bool) (e : El) : Except String (El × List Nat) :=
  if connected then .ok (e, [])
  else
    let invoked := drainCaught e.disposers
    let e₁ := { e with disposers := [], isSetupComplete := false }
    let e₂ := { e₁ with cleanupCalls := e₁.cleanupCalls + 1 }
    match invokeCleanup e with
    | .ok _ => .ok (e₂, invoked)
    | .error _ => .ok (e₂, invoked)

/-- The state transformer of `disconnectedCallback` (the `.error` branch is
unreachable because every hook invocation inside is caught). -/
def disconnectedCb (connected : Bool) (e : El) : El :=
  match disconnectedCallbackE connected e with
  | .ok (e', _) => e'
  | .error _ => e

/-- Source `connectedCallback` (lines 469-496): idempotently create the
render root; if setup is not complete for this connection cycle, run the
scoped region — render into the render root, mark setup complete, schedule
the mount notification on a next-frame callback (not synchronously) — and
register the region's teardown as a disposer. -/
def connectedCallback (w : World) : World :=
  let e := w.el
  let e := { e with renderRoot := true }
  if e.isSetupComplete then { w with el := e }
  else
    let e :=
      { e with
          renderCount := e.renderCount + 1
          isSetupComplete := true
          pendingFrames := e.pendingFrames + 1
          disposers := e.disposers ++ [(e.nextDisposerId, false)]
          nextDisposerId := e.nextDisposerId + 1 }
    { w with el := e }

/-- One scheduled `requestAnimationFrame` callback fires.  The callback body
(source line 490-492) is `this.isConnected && this._isSetupComplete &&
this.onMount?.()`: `onMount` runs only if the element is still connected and
still marked set up at fire time. -/
def fireFrame (w : World) : World :=
  if w.el.pendingFrames = 0 then w
  else
    let e := { w.el with pendingFrames := w.el.pendingFrames - 1 }
    if w.connected && e.isSetupComplete then
      { w with el := { e with mountCalls := e.mountCalls + 1 } }
    else { w with el := e }

/-- A `_setupProperties` call on the lifecycle state: gated by the
`_hasSetupProperties` one-shot flag; the first run installs the maps computed
by the installation pass and sets the flag, which is never reset. -/
def setupPropertiesCb (schema : List (String × Option PropertyOptions)) (w : World) : World :=
  if w.el.hasSetupProperties then w
  else
    let so := setupProperties schema
    { w with el :=
        { w.el with
            attrToProp := so.attrToProp
            propToAttr := so.propToAttr
            hasSetupProperties := true } }

/-- Host-driven lifecycle events: attach (connect then `connectedCallback`),
detach (disconnect then `disconnectedCallback`), a spurious disconnect
notification delivered while the element is still connected (move/reparent),
an animation frame firing, and a `_setupProperties` call. -/
inductive LifeOp where
  | attach
  | detach
  | spuriousDisconnect
  | fireAnimationFrame
  | callSetupProperties
deriving DecidableEq

/-- One lifecycle transition. -/
def lifeStep (schema : List (String × Option PropertyOptions)) (w : World) : LifeOp → World
  | .attach => connectedCallback { w with connected := true }
  | .detach =>
    let w₁ : World := { w with connected := false }
    { w₁ with el := disconnectedCb w₁.connected w₁.el }
  | .spuriousDisconnect => { w with el := disconnectedCb w.connected w.el }
  | .fireAnimationFrame => fireFrame w
  | .callSetupProperties => setupPropertiesCb schema w

/-- A sequence of lifecycle transitions. -/
def lifeRun (schema : List (String × Option PropertyOptions)) (w : World)
    (ops : List LifeOp) : World :=
  ops.foldl (lifeStep schema) w

/-! ## Concrete fixtures used by witnesses -/

/-- A concrete host JSON capability sufficient for witnesses that do not rely
on the JSON round-trip. -/
def trivialHost : JsonHost where
  stringify := fun _ => "null"
  parse := fun _ => none

/-- Config of a reflected boolean attribute-backed property. -/
def boolReflectOptions : PropertyOptions :=
  { attr := .unset, converter := none, default := .bool false, reflect := true,
    type := some .tBoolean }

/-- A concrete element with one installed attribute-backed property named
`count` (reflected boolean), as `_setupProperties` leaves it: the static
record holds the genuine config object, and the installed setter closed over
that same object. -/
def elCount : Element where
  props := fun q => if q = "count" then some boolReflectOptions else none
  staticProps := fun q => if q = "count" then some boolReflectOptions else none
  cells := fun q => if q = "count" then .bool false else .undef
  attrs := fun _ => none
  attrToProp := fun q => if q = "count" then some "count" else none
  propToAttr := fun q => if q = "count" then some "count" else none
  reflecting := none

/-- A concrete element as `_setupProperties` leaves it for the schema
`{ prop1: null }`: the raw static record holds the null config
(`staticProps "prop1" = none`, since `ctor.properties["prop1"]` is falsy),
while the installed accessor closed over the coerced `{}` and both name maps
carry the kebab-derived entry. -/
def elNullConfig : Element where
  props := fun q => if q = "prop1" then some emptyOptions else none
  staticProps := fun _ => none
  cells := fun _ => .undef
  attrs := fun _ => none
  attrToProp := fun q => if q = "prop1" then some "prop1" else none
  propToAttr := fun q => if q = "prop1" then some "prop1" else none
  reflecting := none

/-- The schema consisting of one property whose per-property config is
`null`. -/
def nullConfigSchema : List (String × Option PropertyOptions) := [("prop1", none)]

/-- Two instances of a class with one `attribute: false` property (plain
default `0`), freshly constructed. -/
def protoAfterTwo : ProtoWorld :=
  constructInstance (.num 0) (constructInstance (.num 0) emptyProtoWorld)

/-- A concrete lifecycle element: set up, rendered, three registered
disposers of which the middle one throws, and a throwing user cleanup
hook. -/
def elThreeDisposers : El where
  hasSetupProperties := true
  isSetupComplete := true
  disposers := [(0, false), (1, true), (2, false)]
  nextDisposerId := 3
  attrToProp := [("count", "count")]
  propToAttr := [("count", "count")]
  renderRoot := true
  renderCount := 1
  pendingFrames := 0
  mountCalls := 0
  cleanupCalls := 0
  cleanupThrows := true

/-- A freshly constructed, not yet connected lifecycle world. -/
def worldFresh : World where
  el :=
    { hasSetupProperties := true
      isSetupComplete := false
      disposers := [(0, false)]
      nextDisposerId := 1
      attrToProp := [("count", "count")]
      propToAttr := [("count", "count")]
      renderRoot := false
      renderCount := 0
      pendingFrames := 0
      mountCalls := 0
      cleanupCalls := 0
      cleanupThrows := false }
  connected := false

/-- Typing of property values per built-in tag: the value domain the
corresponding converter is declared at (`null` included where the TS type
allows it). -/
def wellTypedFor : TypeTag → JSVal → Prop
  | .tString, v => (∃ s, v = .str s) ∨ v = .jsNull
  | .tNumber, v => (∃ n, v = .num n) ∨ v = .jsNull
  | .tBoolean, v => ∃ b, v = .bool b
  | .tObject, v => (∃ fs, v = .dict fs) ∨ (∃ l, v = .arr l) ∨ v = .jsNull
  | .tArray, v => (∃ fs, v = .dict fs) ∨ (∃ l, v = .arr l) ∨ v = .jsNull
  | .tOther, _ => True


/-! # Theorems -/

/-! ## Decimal round-trip lemmas -/

theorem digitVal_digitChar {d : Nat} (h : d < 10) : digitVal (digitChar d) = d := by
  interval_cases d <;> decide

theorem isDigitChar_digitChar {d : Nat} (h : d < 10) : isDigitChar (digitChar d) = true := by
  interval_cases d <;> decide

theorem natToDigits_ne_nil (n : Nat) : natToDigits n ≠ [] := by
  rw [natToDigits]
  split <;> simp

theorem natToDigits_all_digits (n : Nat) : (natToDigits n).all isDigitChar = true := by
  induction n using Nat.strong_induction_on with
  | _ n ih =>
    rw [natToDigits]
    split
    · simp [List.all_cons, isDigitChar_digitChar ‹n < 10›]
    · rename_i h
      have hd : n / 10 < n := Nat.div_lt_self (by omega) (by omega)
      simp only [List.all_append, ih _ hd, List.all_cons, List.all_nil,
        isDigitChar_digitChar (Nat.mod_lt n (by omega)), Bool.and_self]

theorem foldl_natToDigits (n : Nat) :
    ∀ a : Nat, (natToDigits n).foldl (fun a c => a * 10 + digitVal c) a =
      a * 10 ^ (natToDigits n).length + n := by
  induction n using Nat.strong_induction_on with
  | _ n ih =>
    intro a
    rw [natToDigits]
    split
    · simp [List.foldl, digitVal_digitChar ‹n < 10›]
    · rename_i h
      have hd : n / 10 < n := Nat.div_lt_self (by omega) (by omega)
      rw [List.foldl_append, ih _ hd a]
      simp only [List.foldl, List.length_append, List.length_cons, List.length_nil]
      rw [digitVal_digitChar (Nat.mod_lt n (by omega))]
      have : 10 ^ ((natToDigits (n / 10)).length + (0 + 1)) =
          10 ^ (natToDigits (n / 10)).length * 10 := by ring
      rw [this]
      have := Nat.div_add_mod n 10
      ring_nf
      omega

theorem parseDigits_natToDigits (n : Nat) : parseDigits? (natToDigits n) = some n := by
  unfold parseDigits?
  rw [if_pos ⟨natToDigits_ne_nil n, natToDigits_all_digits n⟩, foldl_natToDigits n 0]
  simp

/-- Head of a decimal digit string is a digit, hence not the minus sign. -/
theorem natToDigits_head_ne_minus (n : Nat) :
    ∀ c rest, natToDigits n = c :: rest → c ≠ '-' := by
  induction n using Nat.strong_induction_on with
  | _ n ih =>
    intro c rest hc
    rw [natToDigits] at hc
    split at hc
    · cases hc
      intro h
      have := isDigitChar_digitChar ‹n < 10›
      rw [h] at this
      exact absurd this (by decide)
    · rename_i h
      have hd : n / 10 < n := Nat.div_lt_self (by omega) (by omega)
      obtain ⟨c', rest', h'⟩ := List.exists_cons_of_ne_nil (natToDigits_ne_nil (n / 10))
      rw [h'] at hc
      simp only [List.cons_append, List.cons.injEq] at hc
      exact hc.1 ▸ ih _ hd c' rest' h'

theorem parseDecInt_natToString (n : Nat) : parseDecInt? (natToString n) = some (n : Int) := by
  have h0 : parseDecInt? (natToString n) =
      (match natToDigits n with
      | '-' :: rest => (parseDigits? rest).map (fun (m : Nat) => -(m : Int))
      | l => (parseDigits? l).map (fun (m : Nat) => (m : Int))) := rfl
  rw [h0]
  split
  next rest heq => exact absurd heq (fun hc => natToDigits_head_ne_minus n _ _ hc rfl)
  next => rw [parseDigits_natToDigits n, Option.map_some']

theorem parseDecInt_intToString (i : Int) : parseDecInt? (intToString i) = some i := by
  unfold intToString
  split
  next hneg =>
    have h1 : parseDecInt? ("-" ++ natToString i.natAbs) =
        (parseDigits? (natToDigits i.natAbs)).map (fun (m : Nat) => -(m : Int)) := rfl
    rw [h1, parseDigits_natToDigits, Option.map_some']
    have habs : -(i.natAbs : Int) = i := by omega
    rw [habs]
  next hpos =>
    rw [parseDecInt_natToString]
    have htn : (i.toNat : Int) = i := by omega
    rw [htn]

theorem natToString_ne_empty (n : Nat) : natToString n ≠ "" := by
  unfold natToString
  intro h
  exact natToDigits_ne_nil n (congrArg String.data h)

theorem intToString_ne_empty (i : Int) : intToString i ≠ "" := by
  unfold intToString
  split
  · intro h
    have : ("-" ++ natToString i.natAbs).data = [] := congrArg String.data h
    simp [String.data_append] at this
  · exact natToString_ne_empty _

/-- JS `Number(String(i))` recovers every integer double exactly. -/
theorem jsNumberParse_intToString (i : Int) : jsNumberParse (intToString i) = .num i := by
  unfold jsNumberParse
  rw [if_neg (intToString_ne_empty i), parseDecInt_intToString i]


/-! ## Claim C10: naming utilities -/

/-- C10: the naming utilities (total Lean functions over arbitrary strings by
construction) satisfy the three literal fixed points:
`camelAndPascalToKebab "XMLHttpRequest" = "xml-http-request"`,
`camelAndPascalToKebab "myHTMLElement" = "my-html-element"`, and
`kebabToCamel "a-b-c-d" = "aBCD"`. -/
theorem c10_naming_fixed_points :
    camelAndPascalToKebab "XMLHttpRequest" = "xml-http-request" ∧
    camelAndPascalToKebab "myHTMLElement" = "my-html-element" ∧
    kebabToCamel "a-b-c-d" = "aBCD" :=
  ⟨rfl, rfl, rfl⟩

/-! ## Claim C6: string and number converters at null -/

/-- C6 (counterexample): the claim says `toAttribute(v)` is `null` whenever
`v == null`, which includes `v = undefined`.  The source tests `value ===
null` (strict), so at `v = undefined` both converters return
`String(undefined) = "undefined"`, not `null`. -/
theorem c6_undefined_counterexample :
    looseEqNull JSVal.undef = true ∧
    stringConverter.toAttribute JSVal.undef = JSVal.str "undefined" ∧
    numberConverter.toAttribute JSVal.undef = JSVal.str "undefined" ∧
    stringConverter.toAttribute JSVal.undef ≠ JSVal.jsNull ∧
    numberConverter.toAttribute JSVal.undef ≠ JSVal.jsNull := by
  refine ⟨rfl, rfl, rfl, ?_, ?_⟩ <;> simp [stringConverter, numberConverter, jsStrictEq, jsToString]

/-- C6 (amended): the built-in string and number converters test null
strictly: `toAttribute(v)` is `null` exactly when `v` is `null` (not
`undefined`), and for every other value — `undefined` included — it is
`String(v)`. -/
theorem c6_strict_null_converters (v : JSVal) :
    (stringConverter.toAttribute v = JSVal.jsNull ↔ v = JSVal.jsNull) ∧
    (numberConverter.toAttribute v = JSVal.jsNull ↔ v = JSVal.jsNull) ∧
    (v = JSVal.jsNull ∨
      (stringConverter.toAttribute v = JSVal.str (jsToString v) ∧
       numberConverter.toAttribute v = JSVal.str (jsToString v))) := by
  cases v <;> simp [stringConverter, numberConverter, jsStrictEq]

/-! ## Claim C7: same-value property set is a complete no-op -/

/-- C7: assigning a property a value strictly equal (`===`) to its cell's
current `rawVal` short-circuits before any mutation: the state is returned
unchanged and the mutation log is empty — no cell write, no `setAttribute`,
no `removeAttribute` — regardless of the `reflect` setting. -/
theorem c7_same_value_set_noop (h : JsonHost) (el : Element) (property : String)
    (newValue : JSVal) (hsame : jsStrictEq (el.cells property) newValue = true) :
    setProp h el property newValue = (el, []) := by
  unfold setProp
  split
  · rfl
  · simp [hsame]

/-- Witness for C7 at a concrete element: re-assigning the current raw value
`false` of the reflected boolean property performs no mutation. -/
theorem c7_witness :
    jsStrictEq (elCount.cells "count") (JSVal.bool false) = true ∧
    setProp trivialHost elCount "count" (JSVal.bool false) = (elCount, []) :=
  ⟨rfl, c7_same_value_set_noop trivialHost elCount "count" (JSVal.bool false) rfl⟩

/-! ## Claim C3: guards of the attribute-change notification -/

/-- C3 (counterexample): the claim's "otherwise" branch fails on a mapped
property whose raw per-property config is null.  `elNullConfig` is the state
`_setupProperties` reaches for the schema `{ prop1: null }` (the map entry
exists, as `c5_null_config_counterexample` establishes for the same schema,
but `ctor.properties["prop1"]` is null).  A genuine notification
(`old ≠ new`, mapped name, guard clear) is a complete no-op in the source
(`if (!options) return`), while the claim demands that `fromAttribute("5")`
be assigned through the setter — an assignment that is observably not a
no-op: it would write the cell (logged) and change its value. -/
theorem c3_null_config_counterexample :
    elNullConfig.attrToProp "prop1" = some "prop1" ∧
    elNullConfig.reflecting = none ∧
    attributeChangedCallback trivialHost elNullConfig "prop1" none (some "5") =
      (elNullConfig, []) ∧
    (setProp trivialHost elNullConfig "prop1"
      ((resolveConverter trivialHost emptyOptions).fromAttribute (optStrToJS (some "5")))).2 =
      [DomOp.cellWrite "prop1" (JSVal.str "5")] ∧
    (setProp trivialHost elNullConfig "prop1"
      ((resolveConverter trivialHost emptyOptions).fromAttribute (optStrToJS (some "5")))).1.cells
      "prop1" = JSVal.str "5" :=
  ⟨rfl, rfl, rfl, rfl, rfl⟩

/-- C3 (amended): on an attribute-change notification the callback is a pure
no-op (state unchanged, no mutation logged) when old and new values are
equal, when the attribute has no entry in the attribute-to-property map, when
the reflecting guard currently names the mapped property, or when the mapped
property's raw config in the class's static properties record is
null/undefined (the callback re-reads `ctor.properties[propName]` and
returns if it is falsy); otherwise the converter resolved from that raw
config is applied — `fromAttribute(newValue)` — and the result is assigned
through the property's normal setter. -/
theorem c3_attribute_changed_guards (h : JsonHost) (el : Element) (name : String)
    (oldValue newValue : Option String) :
    (oldValue = newValue → attributeChangedCallback h el name oldValue newValue = (el, [])) ∧
    (el.attrToProp name = none → attributeChangedCallback h el name oldValue newValue = (el, [])) ∧
    (∀ propName, el.attrToProp name = some propName → el.reflecting = some propName →
      attributeChangedCallback h el name oldValue newValue = (el, [])) ∧
    (∀ propName, el.attrToProp name = some propName → el.staticProps propName = none →
      attributeChangedCallback h el name oldValue newValue = (el, [])) ∧
    (∀ propName options, el.attrToProp name = some propName → oldValue ≠ newValue →
      el.reflecting ≠ some propName → el.staticProps propName = some options →
      attributeChangedCallback h el name oldValue newValue =
        setProp h el propName ((resolveConverter h options).fromAttribute (optStrToJS newValue))) := by
  refine ⟨?_, ?_, ?_, ?_, ?_⟩
  · intro he
    unfold attributeChangedCallback
    rw [if_pos he]
  · intro hm
    unfold attributeChangedCallback
    split
    · rfl
    · simp only [hm]
  · intro propName hm hr
    unfold attributeChangedCallback
    split
    · rfl
    · simp only [hm]
      rw [if_pos hr]
  · intro propName hm hs
    unfold attributeChangedCallback
    split
    · rfl
    · simp only [hm]
      split
      · rfl
      · simp only [hs]
  · intro propName options hm hne hr hs
    unfold attributeChangedCallback
    rw [if_neg hne]
    simp only [hm]
    rw [if_neg hr]
    simp only [hs]

/-- Witness for C3 at concrete elements: an echo notification with equal
old/new strings leaves the state untouched; a notification for the mapped
null-config property is swallowed; and a genuine change on the
properly-configured property is routed through the raw config's converter
and the normal setter. -/
theorem c3_witness :
    attributeChangedCallback trivialHost elCount "count" (some "x") (some "x") = (elCount, []) ∧
    attributeChangedCallback trivialHost elNullConfig "prop1" none (some "7") =
      (elNullConfig, []) ∧
    attributeChangedCallback trivialHost elCount "count" none (some "") =
      setProp trivialHost elCount "count"
        ((resolveConverter trivialHost boolReflectOptions).fromAttribute (optStrToJS (some ""))) :=
  ⟨(c3_attribute_changed_guards trivialHost elCount "count" (some "x") (some "x")).1 rfl,
   (c3_attribute_changed_guards trivialHost elNullConfig "prop1" none (some "7")).2.2.2.1 "prop1"
     rfl rfl,
   (c3_attribute_changed_guards trivialHost elCount "count" none (some "")).2.2.2.2 "count"
     boolReflectOptions rfl (by simp) (by simp [elCount]) rfl⟩

/-! ## Claim C1: `attribute: false` properties and instance isolation -/

/-- C1 (counterexample): both instances of `protoAfterTwo` initially read the
default `0` through the shared prototype accessor, and a plain write of `5`
through instance `0` is observed by instance `1` — whose property cell the
claim says must remain unchanged.  The two instances resolve the property to
the same cell. -/
theorem c1_shared_cell_counterexample :
    readPropVal protoAfterTwo 0 = some (JSVal.num 0) ∧
    readPropVal protoAfterTwo 1 = some (JSVal.num 0) ∧
    readPropCell protoAfterTwo 0 = readPropCell protoAfterTwo 1 ∧
    readPropVal (writeProp protoAfterTwo 0 (.plain (JSVal.num 5))) 1 = some (JSVal.num 5) :=
  ⟨rfl, rfl, rfl, rfl⟩

/-- C1 (amended): for an `attribute: false` property the get/set pair is
installed on the class prototype (`defineProperty(getPrototypeOf(this), …)`),
shared by all instances of the class: reads and writes through any two
instances resolve to the same closure cell, and constructing an instance
rebinds that shared closure to the newly allocated cell, so the most recently
constructed instance's cell is the one every instance sees. -/
theorem c1_prototype_accessor_shared (w : ProtoWorld) (i j : Nat) (dflt : JSVal)
    (arg : WriteArg) :
    readPropCell w i = readPropCell w j ∧
    writeProp w i arg = writeProp w j arg ∧
    readPropCell (constructInstance dflt w) i = some w.nextCell ∧
    readPropVal (constructInstance dflt w) i = readPropVal (constructInstance dflt w) j :=
  ⟨rfl, rfl, rfl, rfl⟩

/-! ## Claim C5: schema entries with null/undefined config -/

/-- C5 (counterexample): for the schema `{ prop1: null }` the installation
pass does not skip the entry: an accessor for `prop1` is installed on the
instance (attribute-backed branch) and both name maps gain the entry
`prop1 ↔ prop1` — only `observedAttributes` skips the null config. -/
theorem c5_null_config_counterexample :
    (setupProperties nullConfigSchema).instanceAccessors = ["prop1"] ∧
    (setupProperties nullConfigSchema).attrToProp = [("prop1", "prop1")] ∧
    (setupProperties nullConfigSchema).propToAttr = [("prop1", "prop1")] ∧
    observedAttributes nullConfigSchema = [] :=
  ⟨rfl, rfl, rfl, rfl⟩

/-- C5 (amended): `_setupProperties` coerces a null/undefined per-property
config to the empty options object (`properties[property] || {}`) and
processes the entry like any other — installing an attribute-backed accessor
with undefined default and the kebab-derived attribute name in both maps —
and nothing is raised (the pass is a total function).  The defensive skip of
null configs is performed by `observedAttributes` (and by
`attributeChangedCallback`), not by the installation pass. -/
theorem c5_null_config_coerced (schema : List (String × Option PropertyOptions))
    (p : String) (rest : List (String × Option PropertyOptions)) :
    setupProperties (schema.map (fun e => (e.1, some (e.2.getD emptyOptions)))) =
      setupProperties schema ∧
    observedAttributes ((p, none) :: rest) = observedAttributes rest := by
  constructor
  · have key : ∀ (l : List (String × Option PropertyOptions)) (acc : SetupOutcome),
        (l.map (fun e => (e.1, some (e.2.getD emptyOptions)))).foldl setupStep acc =
          l.foldl setupStep acc := by
      intro l
      induction l with
      | nil => intro acc; rfl
      | cons e tail ih =>
        intro acc
        obtain ⟨q, o⟩ := e
        cases o <;> simp only [List.map_cons, List.foldl_cons] <;> exact ih _
    exact key schema {}
  · rfl

/-! ## Claim C2: disconnect drains all disposers and contains all errors -/

/-- The caught drain invokes every registered disposer, in order, whether or
not some of them throw. -/
theorem drainCaught_ids (ds : List (Nat × Bool)) : drainCaught ds = ds.map Prod.fst := by
  induction ds with
  | nil => rfl
  | cons d rest ih =>
    obtain ⟨i, t⟩ := d
    cases t <;> simp [drainCaught, invokeDisposer, ih]

/-- C2: when the disconnect notification fires while the element is no longer
connected, `disconnectedCallback` returns normally (`.ok`, no exception
propagates) for every state — including states with throwing disposers and a
throwing cleanup hook — having invoked every registered disposer exactly once
(the invoked-id list is the full registered list; with the set's no-duplicate
property each id appears once), cleared the disposer set, reset the
setup-complete flag, and invoked the user cleanup hook. -/
theorem c2_disconnect_drains_all (e : El) (connected : Bool)
    (hdisc : connected = false) (hnodup : (e.disposers.map Prod.fst).Nodup) :
    disconnectedCallbackE connected e =
      .ok ({ e with disposers := [], isSetupComplete := false, cleanupCalls := e.cleanupCalls + 1 },
        e.disposers.map Prod.fst) ∧
    ∀ d ∈ e.disposers, (e.disposers.map Prod.fst).count d.1 = 1 := by
  subst hdisc
  constructor
  · cases he : e.cleanupThrows <;>
      simp [disconnectedCallbackE, invokeCleanup, drainCaught_ids, he]
  · intro d hd
    exact List.count_eq_one_of_mem hnodup (List.mem_map_of_mem Prod.fst hd)

/-- Witness for C2: a concrete element with three registered disposers, the
middle one throwing, and a throwing cleanup hook — all three run, the set is
cleared, the flag resets, the hook runs, and the callback returns `.ok`. -/
theorem c2_witness :
    disconnectedCallbackE false elThreeDisposers =
      .ok ({ elThreeDisposers with disposers := [], isSetupComplete := false, cleanupCalls := 1 },
        [0, 1, 2]) ∧
    (elThreeDisposers.disposers.map Prod.fst).count 1 = 1 :=
  ⟨(c2_disconnect_drains_all elThreeDisposers false rfl (by decide)).1,
   (c2_disconnect_drains_all elThreeDisposers false rfl (by decide)).2 (1, true) (by decide)⟩

/-! ## Claim C8: the mount notification is deferred and guarded -/

/-- C8: `connectedCallback` never invokes `onMount` synchronously (the mount
counter is unchanged when it returns) and, when it runs setup, schedules one
next-frame callback; when a scheduled frame later fires, `onMount` runs
exactly when the element is still connected and the setup-complete flag is
still true at that moment, and otherwise the firing is a no-op for the mount
counter. -/
theorem c8_mount_deferred_and_guarded (w w' : World) (hpend : w'.el.pendingFrames ≠ 0) :
    (connectedCallback w).el.mountCalls = w.el.mountCalls ∧
    (w.el.isSetupComplete = false →
      (connectedCallback w).el.pendingFrames = w.el.pendingFrames + 1) ∧
    (fireFrame w').el.mountCalls =
      w'.el.mountCalls + (if w'.connected && w'.el.isSetupComplete then 1 else 0) := by
  refine ⟨?_, ?_, ?_⟩
  · unfold connectedCallback
    cases hs : w.el.isSetupComplete <;> simp [hs]
  · intro hs
    unfold connectedCallback
    simp [hs]
  · unfold fireFrame
    rw [if_neg hpend]
    cases hc : (w'.connected && w'.el.isSetupComplete) <;> simp [hc]

/-- Witness for C8: connecting the fresh world calls no mount hook
synchronously, and the scheduled frame firing on the connected, set-up world
invokes it once. -/
theorem c8_witness :
    (connectedCallback worldFresh).el.mountCalls = 0 ∧
    (fireFrame (connectedCallback { worldFresh with connected := true })).el.mountCalls = 1 :=
  ⟨(c8_mount_deferred_and_guarded worldFresh
      (connectedCallback { worldFresh with connected := true }) (by decide)).1,
   (c8_mount_deferred_and_guarded worldFresh
      (connectedCallback { worldFresh with connected := true }) (by decide)).2.2⟩

/-! ## Claim C9: invariants across connect/disconnect sequences -/

/-- A disconnect notification delivered while the element still reports
connected is swallowed. -/
theorem disconnectedCb_connected (e : El) : disconnectedCb true e = e := rfl

/-- The state transformation of a genuine disconnect. -/
theorem disconnectedCb_disconnected (e : El) :
    disconnectedCb false e =
      { e with disposers := [], isSetupComplete := false, cleanupCalls := e.cleanupCalls + 1 } := by
  cases he : e.cleanupThrows <;>
    simp [disconnectedCb, disconnectedCallbackE, invokeCleanup, he]

/-- Connecting with setup pending runs one render. -/
theorem connectedCallback_renders (w : World) (hs : w.el.isSetupComplete = false) :
    (connectedCallback w).el.renderCount = w.el.renderCount + 1 := by
  unfold connectedCallback
  simp [hs]

/-- Every lifecycle transition preserves the one-shot properties-initialized
flag and both name maps. -/
theorem lifeStep_preserves (schema : List (String × Option PropertyOptions))
    (w : World) (op : LifeOp) (hw : w.el.hasSetupProperties = true) :
    (lifeStep schema w op).el.hasSetupProperties = true ∧
    (lifeStep schema w op).el.attrToProp = w.el.attrToProp ∧
    (lifeStep schema w op).el.propToAttr = w.el.propToAttr := by
  cases op
  case attach =>
    simp only [lifeStep, connectedCallback]
    cases hs : w.el.isSetupComplete <;> simp [hs, hw]
  case detach =>
    simp only [lifeStep]
    simp [disconnectedCb_disconnected, hw]
  case spuriousDisconnect =>
    simp only [lifeStep]
    cases hc : w.connected <;>
      simp [hc, disconnectedCb_disconnected, disconnectedCb_connected, hw]
  case fireAnimationFrame =>
    simp only [lifeStep, fireFrame]
    split
    · exact ⟨hw, rfl, rfl⟩
    · split <;> simp [hw]
  case callSetupProperties =>
    simp only [lifeStep, setupPropertiesCb]
    simp [hw]

/-- C9: across any sequence of connect, disconnect, spurious-disconnect,
frame, and property-setup transitions, once the properties-initialized flag
is true it stays true and the two name maps never change (so no duplicate
entries are ever added), while a reconnect following a genuine disconnect
re-runs the render setup (one more render). -/
theorem c9_lifecycle_invariants (schema : List (String × Option PropertyOptions))
    (ops : List LifeOp) (w : World) (hsetup : w.el.hasSetupProperties = true)
    (w₂ : World) :
    (lifeRun schema w ops).el.hasSetupProperties = true ∧
    (lifeRun schema w ops).el.attrToProp = w.el.attrToProp ∧
    (lifeRun schema w ops).el.propToAttr = w.el.propToAttr ∧
    (lifeStep schema (lifeStep schema w₂ .detach) .attach).el.renderCount =
      (lifeStep schema w₂ .detach).el.renderCount + 1 := by
  have main : ∀ (l : List LifeOp) (u : World), u.el.hasSetupProperties = true →
      (lifeRun schema u l).el.hasSetupProperties = true ∧
      (lifeRun schema u l).el.attrToProp = u.el.attrToProp ∧
      (lifeRun schema u l).el.propToAttr = u.el.propToAttr := by
    intro l
    induction l with
    | nil => intro u hu; exact ⟨hu, rfl, rfl⟩
    | cons op rest ih =>
      intro u hu
      have hstep := lifeStep_preserves schema u op hu
      have hrun := ih (lifeStep schema u op) hstep.1
      exact ⟨hrun.1, hrun.2.1.trans hstep.2.1, hrun.2.2.trans hstep.2.2⟩
  have hm := main ops w hsetup
  refine ⟨hm.1, hm.2.1, hm.2.2, ?_⟩
  have h1 : (lifeStep schema w₂ .detach).el = disconnectedCb false w₂.el := rfl
  have hdetach : (lifeStep schema w₂ .detach).el.isSetupComplete = false := by
    rw [h1, disconnectedCb_disconnected]
  have hattach : lifeStep schema (lifeStep schema w₂ .detach) .attach =
      connectedCallback { lifeStep schema w₂ .detach with connected := true } := rfl
  rw [hattach]
  exact connectedCallback_renders _ hdetach

/-- Witness for C9: the invariants at a concrete world and a concrete
three-transition history (connect, genuine disconnect, reconnect). -/
theorem c9_witness :
    (lifeRun [] worldFresh [LifeOp.attach, LifeOp.detach, LifeOp.attach]).el.hasSetupProperties
        = true ∧
    (lifeRun [] worldFresh [LifeOp.attach, LifeOp.detach, LifeOp.attach]).el.attrToProp =
      worldFresh.el.attrToProp ∧
    (lifeStep [] (lifeStep [] worldFresh .detach) .attach).el.renderCount =
      (lifeStep [] worldFresh .detach).el.renderCount + 1 :=
  ⟨(c9_lifecycle_invariants [] [LifeOp.attach, LifeOp.detach, LifeOp.attach] worldFresh rfl
      worldFresh).1,
   (c9_lifecycle_invariants [] [LifeOp.attach, LifeOp.detach, LifeOp.attach] worldFresh rfl
      worldFresh).2.1,
   (c9_lifecycle_invariants [] [LifeOp.attach, LifeOp.detach, LifeOp.attach] worldFresh rfl
      worldFresh).2.2.2⟩

/-! ## Claim C4: reflect round-trip for the built-in converters -/

theorem jsStrictEq_str_null (s : String) : jsStrictEq (JSVal.str s) JSVal.jsNull = false := rfl

theorem jsStrictEq_num_null (n : Int) : jsStrictEq (JSVal.num n) JSVal.jsNull = false := rfl

theorem jsStrictEq_dict_null (l : List (String × JSVal)) :
    jsStrictEq (JSVal.dict l) JSVal.jsNull = false := rfl

theorem jsStrictEq_arr_null (l : List JSVal) :
    jsStrictEq (JSVal.arr l) JSVal.jsNull = false := rfl

theorem jsStrictEq_null_null : jsStrictEq JSVal.jsNull JSVal.jsNull = true := rfl

/-- C4: for an attribute-backed property with `reflect: true` and a built-in
converter selected by its type tag (string, number, boolean, or object):
setting the property to a well-typed value `v` that differs (`===`) from the
current raw value, then feeding the resulting attribute value back through
the resolved converter's `fromAttribute` (the attribute written by
reflection; `null` when reflection removed it), yields exactly `v` —
structural equality for objects under the host's `JSON.parse ∘ JSON.stringify`
round-trip guarantee (object serialization is delegated to the host), and
exact equality on the integer fragment of numbers, which is the
string-conversion precision the spec guarantees. -/
theorem c4_reflect_round_trip (h : JsonHost) (el : Element) (property attrName : String)
    (options : PropertyOptions) (tag : TypeTag) (v : JSVal)
    (hprops : el.props property = some options)
    (hmap : el.propToAttr property = some attrName)
    (hreflect : options.reflect = true)
    (hconv : options.converter = none)
    (htype : options.type = some tag)
    (htag : tag = .tString ∨ tag = .tNumber ∨ tag = .tBoolean ∨ tag = .tObject)
    (hty : wellTypedFor tag v)
    (hjson : isObjectVal v = true → h.parse (h.stringify v) = some v)
    (hne : jsStrictEq (el.cells property) v = false) :
    (resolveConverter h options).fromAttribute
      (optStrToJS ((setProp h el property v).1.attrs attrName)) = v := by
  have hres : resolveConverter h options = (convertersLookup h tag).getD defaultConverter := by
    unfold resolveConverter
    rw [hconv, htype]
  rcases htag with rfl | rfl | rfl | rfl
  · rcases hty with ⟨s, rfl⟩ | rfl
    · simp [setProp, hprops, hne, hreflect, hmap, hres, convertersLookup, stringConverter,
        jsStrictEq_str_null, updFn, optStrToJS, jsToString]
    · simp [setProp, hprops, hne, hreflect, hmap, hres, convertersLookup, stringConverter,
        jsStrictEq_null_null, updFn, optStrToJS]
  · rcases hty with ⟨n, rfl⟩ | rfl
    · simp [setProp, hprops, hne, hreflect, hmap, hres, convertersLookup, numberConverter,
        jsStrictEq_num_null, jsStrictEq_str_null, updFn, optStrToJS, jsToString,
        jsNumberParse_intToString]
    · simp [setProp, hprops, hne, hreflect, hmap, hres, convertersLookup, numberConverter,
        jsStrictEq_null_null, updFn, optStrToJS]
  · obtain ⟨b, rfl⟩ := hty
    cases b <;>
      simp [setProp, hprops, hne, hreflect, hmap, hres, convertersLookup, booleanConverter,
        jsTruthy, jsStrictEq_str_null, jsStrictEq_null_null, updFn, optStrToJS, jsToString]
  · rcases hty with ⟨fs, rfl⟩ | ⟨l, rfl⟩ | rfl
    · simp [setProp, hprops, hne, hreflect, hmap, hres, convertersLookup, objectConverter,
        looseEqNull, isObjectVal, jsStrictEq_str_null, updFn, optStrToJS, jsToString,
        hjson rfl]
    · simp [setProp, hprops, hne, hreflect, hmap, hres, convertersLookup, objectConverter,
        looseEqNull, isObjectVal, jsStrictEq_str_null, updFn, optStrToJS, jsToString,
        hjson rfl]
    · simp [setProp, hprops, hne, hreflect, hmap, hres, convertersLookup, objectConverter,
        looseEqNull, jsStrictEq_null_null, updFn, optStrToJS]

/-- Witness for C4 at the concrete boolean property of `elCount`: setting
`true` reflects the empty-string attribute, and reading it back through the
boolean converter returns `true`. -/
theorem c4_witness :
    (resolveConverter trivialHost boolReflectOptions).fromAttribute
      (optStrToJS ((setProp trivialHost elCount "count" (JSVal.bool true)).1.attrs "count")) =
      JSVal.bool true :=
  c4_reflect_round_trip trivialHost elCount "count" "count" boolReflectOptions .tBoolean
    (JSVal.bool true) rfl rfl rfl rfl rfl (Or.inr (Or.inr (Or.inl rfl)))
    ⟨true, rfl⟩ (fun hobj => absurd hobj (by decide)) rfl

end VanRE
